import Mathlib

/-!
Shallow embedding of `bimmer_connected/api/authentication.py`
(`MyBMWAuthentication`, `MyBMWLoginClient`, `MyBMWLoginRetry`).

Network transport is modelled as an oracle `rs : Nat -> Response` giving the
response to the n-th send of the request; JSON decoding of bodies is modelled
at the interface level (the `message` field of a decoded body is carried as an
`Option String`, the raw body text as a `String`).
-/

namespace BimmerConnected

/-- An HTTP response as seen by the auth flows: status code, raw body text
(`response.text`), and the `message` field of the JSON-decoded body when
present (`response.json().get("message", "")` yields `""` when absent). -/
structure Response where
  status : Nat
  text : String
  message : Option String
deriving Repr, DecidableEq

/-- A classified failure (`MyBMWAPIError` family) carrying HTTP status and body. -/
structure APIError where
  status : Nat
  body : String
deriving Repr, DecidableEq

/-- `bimmer_connected.api.regions.Regions` (the three regions used by
`authentication.py`). -/
inductive Regions where
  | NORTH_AMERICA
  | REST_OF_WORLD
  | CHINA
deriving Repr, DecidableEq

/-- The mutable credential record of `MyBMWAuthentication.__init__`
(lines 46-64): timestamps are modelled as integers (seconds). -/
structure AuthState where
  username : String
  password : String
  region : Regions
  access_token : Option String
  expires_at : Option Int
  refresh_token : Option String
  session_id : String
  gcid : Option String
deriving Repr, DecidableEq

/-- The headers of the outgoing request that `async_auth_flow` touches. -/
structure Request where
  authorization : Option String
  bmw_session_id : Option String
deriving Repr, DecidableEq

/-- Python truthiness of an `Optional[str]`: `None` and `""` are falsy
(`if not self.access_token`, `if self.refresh_token`). -/
def tokenPresent : Option String → Bool
  | none => false
  | some s => !(s == "")

/-- ASCII lowering of a character code (`str.lower()` on the ASCII range,
which is all that matters for matching the all-ASCII pattern `"quota"`). -/
def lowerCode (c : Char) : Nat :=
  let n := c.toNat
  if 65 ≤ n && n ≤ 90 then n + 32 else n

/-- Substring occurrence over lists of character codes. -/
def codesContain (pat : List Nat) : List Nat → Bool
  | [] => pat.isEmpty
  | c :: rest => pat.isPrefixOf (c :: rest) || codesContain pat rest

/-- `"quota" in response.text.lower()` (line 97). -/
def containsQuota (text : String) : Bool :=
  codesContain ("quota".data.map lowerCode) (text.data.map lowerCode)

/-- `next(iter([int(i) for i in msg if i.isdigit()]), 2)` (lines 102, 398):
the first digit character of the message as a number, defaulting to 2. -/
def firstDigitOrDefault (msg : String) : Nat :=
  match (msg.data.filter Char.isDigit).head? with
  | some c => c.toNat - 48
  | none => 2

/-- `math.ceil(d * 1.25)` for a natural number `d`: the ceiling of `5*d/4`. -/
def ceilMul125 (d : Nat) : Nat := (5 * d + 3) / 4

/-- The computed backoff wait (lines 101-103 and 397-399): first digit of the
body's `message` field (or 2), times 1.25, rounded up. -/
def waitTime429 (message : Option String) : Nat :=
  ceilMul125 (firstDigitOrDefault (message.getD ""))

/-- `httpx.Response.is_error`: any 4xx/5xx status. -/
def isErrorStatus (s : Nat) : Bool := 400 ≤ s && s < 600

/-- Modelled from the spec: `handle_httpstatuserror` lives in
`bimmer_connected/api/utils.py`, which is not among the sources; per the spec
it raises "a classified failure carrying the original HTTP status and body". -/
def handle_httpstatuserror (r : Response) : APIError :=
  ⟨r.status, r.text⟩

/-- The `raise_for_status_event_handler` response hook of `MyBMWLoginClient`
(lines 368-377): converts any 4xx/5xx response except 429 into a classified
failure; other responses pass through. -/
def raise_for_status_event_handler (r : Response) : Except APIError Unit :=
  if isErrorStatus r.status && r.status != 429 then
    .error (handle_httpstatuserror r)
  else
    .ok ()

instance {ε α : Type} [DecidableEq ε] [DecidableEq α] : DecidableEq (Except ε α) :=
  fun x y =>
    match x, y with
    | .ok a, .ok b =>
      if h : a = b then isTrue (by rw [h]) else isFalse (by simp [h])
    | .error a, .error b =>
      if h : a = b then isTrue (by rw [h]) else isFalse (by simp [h])
    | .ok _, .error _ => isFalse (by simp)
    | .error _, .ok _ => isFalse (by simp)

/-- The `for _ in range(n)` retry loop body shared by
`MyBMWAuthentication.async_auth_flow` (lines 98-106) and
`MyBMWLoginRetry.async_auth_flow` (lines 394-402).

Arguments: remaining iterations, current response, index into the transport
oracle of the next resend, accumulated sleep durations. On a 429 the loop
computes the wait from the current response's `message`, sleeps, resends and
receives the next response; on anything else it does nothing. -/
def retryLoop (rs : Nat → Response) :
    Nat → Response → Nat → List Nat → Response × Nat × List Nat
  | 0, r, idx, sleeps => (r, idx, sleeps)
  | n + 1, r, idx, sleeps =>
    if r.status == 429 then
      retryLoop rs n (rs idx) (idx + 1) (sleeps ++ [waitTime429 r.message])
    else
      retryLoop rs n r idx sleeps

/-- Observable outcome of one run of `MyBMWLoginRetry.async_auth_flow`. -/
structure RetryFlowResult where
  sleeps : List Nat
  sendCount : Nat
  outcome : Except APIError Response
deriving Repr, DecidableEq

/-- `MyBMWLoginRetry.async_auth_flow` (lines 390-409): send once, run the
3-iteration 429 retry loop, and raise a classified failure iff the final
response still has status 429 (all other statuses were already handled by the
response hook of `MyBMWLoginClient`). -/
def MyBMWLoginRetry.async_auth_flow (rs : Nat → Response) : RetryFlowResult :=
  let r0 := rs 0
  let res := retryLoop rs 3 r0 1 []
  if res.1.status == 429 then
    { sleeps := res.2.2, sendCount := res.2.1,
      outcome := .error (handle_httpstatuserror res.1) }
  else
    { sleeps := res.2.2, sendCount := res.2.1, outcome := .ok res.1 }

/-- Observable outcome of one run of `MyBMWAuthentication.async_auth_flow`. -/
structure FlowResult where
  finalState : AuthState
  loginCount : Nat
  sent : List Request
  sleeps : List Nat
  outcome : Except APIError Response
deriving Repr, DecidableEq

/-- `f"Bearer {self.access_token}"` (Python formats `None` as `"None"`). -/
def bearerOf : Option String → String
  | none => "Bearer None"
  | some t => "Bearer " ++ t

/-- Lines 81-82 / 93-94: attach `authorization` and `bmw-session-id` headers. -/
def setHeaders (st : AuthState) (req : Request) : Request :=
  { req with authorization := some (bearerOf st.access_token),
             bmw_session_id := some st.session_id }

/-- `MyBMWAuthentication.async_auth_flow` (lines 76-111).

`loginF` is the `login()` method as a state transformer that either yields the
updated credential state or raises a classified failure; `rs n` is the
response to the n-th send of the request.

Step 1 (lines 78-80): under the login lock, call `login()` iff no access token.
Step 2 (lines 81-85): attach headers and send.
On 401 (lines 89-95): forced `login()`, re-attach headers, resend exactly once.
On 429 or quota-403 (lines 96-111): run the 3-iteration retry loop, then
`raise_for_status` on the final response (classified by
`handle_httpstatuserror`). -/
def MyBMWAuthentication.async_auth_flow
    (loginF : AuthState → Except APIError AuthState)
    (st0 : AuthState) (req0 : Request) (rs : Nat → Response) : FlowResult :=
  let step1 : Except APIError AuthState × Nat :=
    if tokenPresent st0.access_token then (.ok st0, 0) else (loginF st0, 1)
  match step1.1 with
  | .error e =>
    { finalState := st0, loginCount := step1.2, sent := [], sleeps := [],
      outcome := .error e }
  | .ok st1 =>
    let req1 := setHeaders st1 req0
    let r0 := rs 0
    if r0.status == 401 then
      match loginF st1 with
      | .error e =>
        { finalState := st1, loginCount := step1.2 + 1, sent := [req1],
          sleeps := [], outcome := .error e }
      | .ok st2 =>
        { finalState := st2, loginCount := step1.2 + 1,
          sent := [req1, setHeaders st2 req1], sleeps := [],
          outcome := .ok (rs 1) }
    else if r0.status == 429 || (r0.status == 403 && containsQuota r0.text) then
      let res := retryLoop rs 3 r0 1 []
      if isErrorStatus res.1.status then
        { finalState := st1, loginCount := step1.2,
          sent := List.replicate res.2.1 req1, sleeps := res.2.2,
          outcome := .error (handle_httpstatuserror res.1) }
      else
        { finalState := st1, loginCount := step1.2,
          sent := List.replicate res.2.1 req1, sleeps := res.2.2,
          outcome := .ok res.1 }
    else
      { finalState := st1, loginCount := step1.2, sent := [req1], sleeps := [],
        outcome := .ok r0 }

/-! ## Login strategies and `login()` -/

/-- The network-visible quantities of `_login_row_na` (lines 137-220) and of
`_refresh_token_row_na` (lines 222-264): the wall-clock time captured as
`current_utc_time`, the token endpoint's `expires_in`, and the returned token
pair. -/
structure RowNaNet where
  now : Int
  expires_in : Int
  access_token : String
  refresh_token : String
deriving Repr, DecidableEq

/-- The token dict returned by the Rest-of-World / North-America strategies. -/
structure RowNaToken where
  access_token : String
  expires_at : Int
  refresh_token : String
deriving Repr, DecidableEq

/-- The token dict returned by the China strategies (also carries `gcid`). -/
structure ChinaToken where
  access_token : String
  expires_at : Int
  refresh_token : String
  gcid : String
deriving Repr, DecidableEq

/-- The network-visible quantities of `_login_china` (lines 266-312): the
China full login takes the expiry from the `exp` claim of the decoded JWT
access token (line 309), not from an `expires_in` field. -/
structure ChinaNet where
  exp : Int
  access_token : String
  refresh_token : String
  gcid : String
deriving Repr, DecidableEq

/-- The network-visible quantities of `_refresh_token_china` (lines 314-344):
expiry comes from `current_utc_time + expires_in` (line 333). -/
structure ChinaRefreshNet where
  now : Int
  expires_in : Int
  access_token : String
  refresh_token : String
  gcid : String
deriving Repr, DecidableEq

/-- The dict built by `_login_row_na` (lines 213-220):
`expires_at = current_utc_time + timedelta(seconds=expires_in)`. -/
def login_row_na (net : RowNaNet) : RowNaToken :=
  { access_token := net.access_token,
    expires_at := net.now + net.expires_in,
    refresh_token := net.refresh_token }

/-- `_refresh_token_row_na` (lines 222-264): the whole network interaction sits
in a `try` whose `except MyBMWAPIError` returns the empty dict (line 258);
otherwise the dict has the same shape as the full login's (lines 260-264). -/
def refresh_token_row_na (net : Except APIError RowNaNet) : Option RowNaToken :=
  match net with
  | .error _ => none
  | .ok n => some (login_row_na n)

/-- The dict built by `_login_china` (lines 307-312): expiry is the decoded
token's `exp` claim (line 309). -/
def login_china (net : ChinaNet) : ChinaToken :=
  { access_token := net.access_token,
    expires_at := net.exp,
    refresh_token := net.refresh_token,
    gcid := net.gcid }

/-- `_refresh_token_china` (lines 314-344): `except MyBMWAPIError` yields the
empty dict (line 337); otherwise `expires_at = now + expires_in` (line 333). -/
def refresh_token_china (net : Except APIError ChinaRefreshNet) : Option ChinaToken :=
  match net with
  | .error _ => none
  | .ok n =>
    some { access_token := n.access_token,
           expires_at := n.now + n.expires_in,
           refresh_token := n.refresh_token,
           gcid := n.gcid }

/-- `EXPIRES_AT_OFFSET = datetime.timedelta(seconds=HTTPX_TIMEOUT * 2)`
(line 38). `HTTPX_TIMEOUT` lives in `bimmer_connected/const.py`, outside the
sources here, so the offset is kept as a function of the configured timeout. -/
def EXPIRES_AT_OFFSET (httpxTimeout : Int) : Int := httpxTimeout * 2

/-- The oracle bundle for one `login()` call: outcomes of the four strategies'
network interactions. A `.error` means the strategy's HTTP calls raised a
classified `MyBMWAPIError`. -/
structure LoginNets where
  rowNaRefresh : Except APIError RowNaNet
  rowNaLogin : Except APIError RowNaNet
  chinaRefresh : Except APIError ChinaRefreshNet
  chinaLogin : Except APIError ChinaNet

/-- Lines 122 and 133-135 for NA/ROW: subtract `EXPIRES_AT_OFFSET` from the
dict's expiry, then overwrite `access_token`, `expires_at`, `refresh_token`. -/
def applyTokenRowNa (offset : Int) (td : RowNaToken) (st : AuthState) : AuthState :=
  { st with access_token := some td.access_token,
            expires_at := some (td.expires_at - offset),
            refresh_token := some td.refresh_token }

/-- Lines 130-135 for China: additionally `self.gcid = token_data["gcid"]`
(line 131). -/
def applyTokenChina (offset : Int) (td : ChinaToken) (st : AuthState) : AuthState :=
  { st with access_token := some td.access_token,
            expires_at := some (td.expires_at - offset),
            refresh_token := some td.refresh_token,
            gcid := some td.gcid }

/-- `MyBMWAuthentication.login` (lines 113-135), with the strategy network
outcomes supplied by `nets` and `EXPIRES_AT_OFFSET` by `offset`.

For NA/ROW: if a refresh token is present (Python truthiness), try the refresh
strategy; if it yields the empty dict (`if not token_data`, line 120), run the
full login, whose classified failure propagates. The resulting dict is stored
via `applyTokenRowNa`. For China the same structure with the China strategies
and `applyTokenChina`. -/
def login (offset : Int) (nets : LoginNets) (st : AuthState) :
    Except APIError AuthState :=
  match st.region with
  | .NORTH_AMERICA | .REST_OF_WORLD =>
    match (if tokenPresent st.refresh_token
           then refresh_token_row_na nets.rowNaRefresh else none) with
    | some td => .ok (applyTokenRowNa offset td st)
    | none =>
      (nets.rowNaLogin.map login_row_na).map (fun td => applyTokenRowNa offset td st)
  | .CHINA =>
    match (if tokenPresent st.refresh_token
           then refresh_token_china nets.chinaRefresh else none) with
    | some td => .ok (applyTokenChina offset td st)
    | none =>
      (nets.chinaLogin.map login_china).map (fun td => applyTokenChina offset td st)

/-- `login()` as it leaves the object: on success the updated state, on a
raised classified failure the state as of the exception point. In the source
every `self.*` assignment (lines 131, 133-135) comes after the last fallible
operation (the strategies' awaits and the dict accesses, all of which precede
line 131 and operate on complete dicts), so the state at any exception point
is the original state. -/
def loginRun (offset : Int) (nets : LoginNets) (st : AuthState) :
    AuthState × Option APIError :=
  match login offset nets st with
  | .ok st1 => (st1, none)
  | .error e => (st, some e)

/-- `(a, x)` is the `(access_token, pre-offset expires_at)` pair of one of the
four strategies' successful results: a successful `login()` must take both
stored fields from exactly one such pair. -/
def isStrategyToken (nets : LoginNets) (a : String) (x : Int) : Prop :=
  (∃ n, nets.rowNaRefresh = .ok n ∧ a = n.access_token ∧ x = n.now + n.expires_in) ∨
  (∃ n, nets.rowNaLogin = .ok n ∧ a = n.access_token ∧ x = n.now + n.expires_in) ∨
  (∃ n, nets.chinaRefresh = .ok n ∧ a = n.access_token ∧ x = n.now + n.expires_in) ∨
  (∃ n, nets.chinaLogin = .ok n ∧ a = n.access_token ∧ x = n.exp)

/-! ## Concurrency model for the login lock -/

/-- The critical section of `async_auth_flow` step 1 (lines 78-80), executed
atomically under `login_lock`: if no access token (Python truthiness), run
`login()`. Returns the state afterwards and how many logins ran (0 or 1).
`loginF` is the successful-login state transformer. -/
def lockedLoginStep (loginF : AuthState → AuthState) (st : AuthState) :
    AuthState × Nat :=
  if tokenPresent st.access_token then (st, 0) else (loginF st, 1)

/-- N concurrent `async_auth_flow` callers as serialized by `login_lock`: the
lock admits them one at a time, each running `lockedLoginStep` on the state
left by the previous one. Returns the final state and the total number of
login invocations. -/
def serializeCallers (loginF : AuthState → AuthState) :
    Nat → AuthState → AuthState × Nat
  | 0, st => (st, 0)
  | n + 1, st =>
    let first := lockedLoginStep loginF st
    let rest := serializeCallers loginF n first.1
    (rest.1, first.2 + rest.2)

/-! ## Concrete fixtures -/

/-- An NA credential holding a valid access token. -/
def stTok : AuthState :=
  { username := "u", password := "p", region := .NORTH_AMERICA,
    access_token := some "tok", expires_at := some 100,
    refresh_token := some "rtok", session_id := "sess", gcid := none }

/-- `stTok` after a forced re-login produced a fresh token. -/
def stTok2 : AuthState := { stTok with access_token := some "tok2" }

/-- A China credential with neither an access nor a refresh token. -/
def stChinaFresh : AuthState :=
  { username := "u", password := "p", region := .CHINA,
    access_token := none, expires_at := none,
    refresh_token := none, session_id := "sess", gcid := none }

/-- An NA credential with no refresh token. -/
def stNaNoRt : AuthState :=
  { username := "u", password := "p", region := .NORTH_AMERICA,
    access_token := none, expires_at := none,
    refresh_token := none, session_id := "sess", gcid := none }

/-- An NA credential with a refresh token. -/
def stNaRt : AuthState := { stNaNoRt with refresh_token := some "rt0" }

/-- A China credential with a refresh token and gcid. -/
def stChinaRt : AuthState :=
  { stChinaFresh with refresh_token := some "rt0", gcid := some "g0" }

/-- A request with no headers attached yet. -/
def reqEmpty : Request := { authorization := none, bmw_session_id := none }

/-- A `login()` that succeeds leaving the state unchanged. -/
def okLogin : AuthState → Except APIError AuthState := fun s => .ok s

/-- A `login()` that succeeds yielding `stTok2`. -/
def loginTok2 : AuthState → Except APIError AuthState := fun _ => .ok stTok2

/-- Transport answering every send with a quota-403. -/
def rsQuota403 : Nat → Response :=
  fun _ => ⟨403, "Out of call volume Quota", none⟩

/-- Transport answering the first three sends with 429 and the fourth with
200 (the response sequence [429, 429, 429, 200]). -/
def rsThree429 : Nat → Response :=
  fun n => if n < 3 then ⟨429, "busy", some "try again later"⟩ else ⟨200, "ok", none⟩

/-- Transport whose first response is a 429 carrying a two-digit retry hint. -/
def rsRetry15 : Nat → Response :=
  fun n => if n = 0 then ⟨429, "busy", some "Retry after 15 seconds"⟩
           else ⟨200, "ok", none⟩

/-- Transport answering every send with 429 (the sequence [429, 429, 429, 429]). -/
def rs429all : Nat → Response :=
  fun _ => ⟨429, "too many requests", some "Retry after 5 seconds"⟩

/-- Transport answering every send with 401. -/
def rs401all : Nat → Response := fun _ => ⟨401, "unauthorized", none⟩

/-- Transport answering every send with 200. -/
def rs200all : Nat → Response := fun _ => ⟨200, "ok", none⟩

/-- Strategy outcomes where every strategy succeeds (distinct values). -/
def netsAll : LoginNets :=
  { rowNaRefresh := .ok ⟨10, 20, "ar", "rr"⟩,
    rowNaLogin := .ok ⟨30, 40, "al", "rl"⟩,
    chinaRefresh := .ok ⟨50, 60, "ac", "rc", "gc"⟩,
    chinaLogin := .ok ⟨70, "acl", "rcl", "gcl"⟩ }

/-- Strategy outcomes where every strategy raises a classified failure. -/
def netsFailAll : LoginNets :=
  { rowNaRefresh := .error ⟨500, "boom"⟩, rowNaLogin := .error ⟨500, "boom"⟩,
    chinaRefresh := .error ⟨500, "boom"⟩, chinaLogin := .error ⟨500, "boom"⟩ }

/-- Strategy outcomes where the NA/ROW refresh raises a classified failure and
the full login succeeds. -/
def netsRefreshFail : LoginNets :=
  { rowNaRefresh := .error ⟨429, "quota"⟩, rowNaLogin := .ok ⟨30, 40, "al", "rl"⟩,
    chinaRefresh := .error ⟨500, "boom"⟩, chinaLogin := .error ⟨500, "boom"⟩ }

/-- Strategy outcomes where the China full login returns a token whose JWT
`exp` claim is 0, an instant far before the wall-clock time of the run. -/
def netsChinaExp0 : LoginNets :=
  { rowNaRefresh := .error ⟨500, "boom"⟩, rowNaLogin := .error ⟨500, "boom"⟩,
    chinaRefresh := .error ⟨500, "boom"⟩,
    chinaLogin := .ok ⟨0, "at", "rt", "g"⟩ }

/-- A successful login step that installs a fresh access token. -/
def loginSetTok : AuthState → AuthState :=
  fun s => { s with access_token := some "fresh" }

/-! ## Helper lemmas -/

lemma natCeil_div (a b : Nat) (hb : 0 < b) : ⌈(a : ℚ) / b⌉₊ = (a + b - 1) / b := by
  rcases Nat.eq_zero_or_pos a with ha | ha
  · subst ha
    simp only [Nat.cast_zero, zero_div, Nat.ceil_zero, Nat.zero_add]
    exact (Nat.div_eq_of_lt (by omega)).symm
  · have hq := Nat.div_add_mod (a + b - 1) b
    have hr : (a + b - 1) % b < b := Nat.mod_lt _ hb
    set n := (a + b - 1) / b with hn
    have hsub : (n - 1) * b = n * b - 1 * b := Nat.sub_mul n 1 b
    have hcomm : n * b = b * n := Nat.mul_comm n b
    have hn1 : 1 ≤ n := Nat.one_le_div_iff hb |>.mpr (by omega)
    have h1 : (n - 1) * b < a := by omega
    have h2 : a ≤ n * b := by omega
    have hbq : (0 : ℚ) < (b : ℚ) := by exact_mod_cast hb
    rw [Nat.ceil_eq_iff (by omega)]
    constructor
    · rw [lt_div_iff₀ hbq]
      exact_mod_cast h1
    · rw [div_le_iff₀ hbq]
      exact_mod_cast h2

/-- `ceilMul125` is exactly `math.ceil(d * 1.25)`: the multiplication by the
binary float 1.25 is exact for the digit range involved, so the rational
ceiling is the right model. -/
lemma ceilMul125_eq_ceil (d : Nat) : ceilMul125 d = ⌈(d : ℚ) * (5 / 4)⌉₊ := by
  have h : (d : ℚ) * (5 / 4) = ((5 * d : ℕ) : ℚ) / ((4 : ℕ) : ℚ) := by push_cast; ring
  have h4 : 5 * d + 4 - 1 = 5 * d + 3 := by omega
  rw [ceilMul125, h, natCeil_div (5 * d) 4 (by norm_num), h4]

lemma retryLoop_sleeps_prefix (rs : Nat → Response) :
    ∀ (n : Nat) (r : Response) (idx : Nat) (acc : List Nat),
      ∃ t, (retryLoop rs n r idx acc).2.2 = acc ++ t := by
  intro n
  induction n with
  | zero => intro r idx acc; exact ⟨[], by simp [retryLoop]⟩
  | succ m ih =>
    intro r idx acc
    by_cases h : r.status == 429
    · obtain ⟨t, ht⟩ := ih (rs idx) (idx + 1) (acc ++ [waitTime429 r.message])
      exact ⟨waitTime429 r.message :: t, by simp [retryLoop, h, ht]⟩
    · obtain ⟨t, ht⟩ := ih r idx acc
      exact ⟨t, by simp [retryLoop, h, ht]⟩

lemma retryLoop_idx_le (rs : Nat → Response) :
    ∀ (n : Nat) (r : Response) (idx : Nat) (acc : List Nat),
      idx ≤ (retryLoop rs n r idx acc).2.1 := by
  intro n
  induction n with
  | zero => intro r idx acc; simp [retryLoop]
  | succ m ih =>
    intro r idx acc
    by_cases h : r.status == 429
    · simp only [retryLoop, h, if_true]
      exact le_trans (by omega) (ih (rs idx) (idx + 1) _)
    · simp only [retryLoop, h, if_false]
      exact ih r idx acc

/-- Three loop iterations on a run of 429 responses: three sleeps, three
resends, and the loop finishes holding the response to the third resend. -/
lemma retryLoop3_all429 (rs : Nat → Response)
    (h0 : (rs 0).status = 429) (h1 : (rs 1).status = 429) (h2 : (rs 2).status = 429) :
    retryLoop rs 3 (rs 0) 1 [] =
      (rs 3, 4, [waitTime429 (rs 0).message, waitTime429 (rs 1).message,
                 waitTime429 (rs 2).message]) := by
  simp [retryLoop, h0, h1, h2]

/-- Once the access token is present, no caller admitted by the lock runs
`login()` and the state never changes. -/
lemma serializeCallers_present (loginF : AuthState → AuthState) :
    ∀ (n : Nat) (st : AuthState), tokenPresent st.access_token = true →
      serializeCallers loginF n st = (st, 0) := by
  intro n
  induction n with
  | zero => intro st h; rfl
  | succ m ih =>
    intro st h
    simp [serializeCallers, lockedLoginStep, h, ih st h]

/-- Every successful `login()` stores an `(access_token, expires_at)` pair
taken, with the offset subtracted, from a single strategy result. -/
lemma login_ok_strategy_token (offset : Int) (nets : LoginNets) (st st1 : AuthState)
    (hok : login offset nets st = .ok st1) :
    ∃ a x, st1.access_token = some a ∧ st1.expires_at = some (x - offset) ∧
      isStrategyToken nets a x := by
  rw [login] at hok
  split at hok
  · split at hok
    · rename_i td htd
      injection hok with hok
      subst hok
      by_cases hrt : tokenPresent st.refresh_token
      · rw [if_pos hrt] at htd
        cases hnr : nets.rowNaRefresh with
        | error e => rw [hnr] at htd; simp [refresh_token_row_na] at htd
        | ok n =>
          rw [hnr] at htd
          simp only [refresh_token_row_na, Option.some.injEq] at htd
          subst htd
          exact ⟨n.access_token, n.now + n.expires_in, rfl, rfl,
            Or.inl ⟨n, hnr, rfl, rfl⟩⟩
      · rw [if_neg hrt] at htd; simp at htd
    · cases hnl : nets.rowNaLogin with
      | error e => rw [hnl] at hok; simp [Except.map] at hok
      | ok n =>
        rw [hnl] at hok
        simp only [Except.map] at hok
        injection hok with hok
        subst hok
        exact ⟨n.access_token, n.now + n.expires_in, rfl, rfl,
          Or.inr (Or.inl ⟨n, hnl, rfl, rfl⟩)⟩
  · split at hok
    · rename_i td htd
      injection hok with hok
      subst hok
      by_cases hrt : tokenPresent st.refresh_token
      · rw [if_pos hrt] at htd
        cases hnr : nets.rowNaRefresh with
        | error e => rw [hnr] at htd; simp [refresh_token_row_na] at htd
        | ok n =>
          rw [hnr] at htd
          simp only [refresh_token_row_na, Option.some.injEq] at htd
          subst htd
          exact ⟨n.access_token, n.now + n.expires_in, rfl, rfl,
            Or.inl ⟨n, hnr, rfl, rfl⟩⟩
      · rw [if_neg hrt] at htd; simp at htd
    · cases hnl : nets.rowNaLogin with
      | error e => rw [hnl] at hok; simp [Except.map] at hok
      | ok n =>
        rw [hnl] at hok
        simp only [Except.map] at hok
        injection hok with hok
        subst hok
        exact ⟨n.access_token, n.now + n.expires_in, rfl, rfl,
          Or.inr (Or.inl ⟨n, hnl, rfl, rfl⟩)⟩
  · split at hok
    · rename_i td htd
      injection hok with hok
      subst hok
      by_cases hrt : tokenPresent st.refresh_token
      · rw [if_pos hrt] at htd
        cases hcr : nets.chinaRefresh with
        | error e => rw [hcr] at htd; simp [refresh_token_china] at htd
        | ok n =>
          rw [hcr] at htd
          simp only [refresh_token_china, Option.some.injEq] at htd
          subst htd
          exact ⟨n.access_token, n.now + n.expires_in, rfl, rfl,
            Or.inr (Or.inr (Or.inl ⟨n, hcr, rfl, rfl⟩))⟩
      · rw [if_neg hrt] at htd; simp at htd
    · cases hcl : nets.chinaLogin with
      | error e => rw [hcl] at hok; simp [Except.map] at hok
      | ok n =>
        rw [hcl] at hok
        simp only [Except.map] at hok
        injection hok with hok
        subst hok
        exact ⟨n.access_token, n.exp, rfl, rfl,
          Or.inr (Or.inr (Or.inr ⟨n, hcl, rfl, rfl⟩))⟩

/-! ## Claim C1 (corrected) -/

/-- Claim C1 as stated is false: on a first response of 403 with "quota" in
the body, the authenticated flow performs no sleep and no resend at all — the
retry loop's body fires only on status 429 (line 99), so a quota-403 falls
straight through to the classified failure. -/
theorem quota403_no_retry_counterexample :
    ¬ ((MyBMWAuthentication.async_auth_flow okLogin stTok reqEmpty rsQuota403).sleeps ≠ [] ∧
       2 ≤ (MyBMWAuthentication.async_auth_flow okLogin stTok reqEmpty rsQuota403).sent.length) := by
  decide

/-- Claim C1, amended: for every response with status 403 whose body text
contains "quota" (case-insensitive), the authenticated request flow enters the
quota-handling branch but performs no sleep and no resend (the inner loop
retries only 429s); the request is sent exactly once and the flow immediately
surfaces a classified APIError carrying status 403 and the body. -/
theorem quota403_immediate_apierror
    (loginF : AuthState → Except APIError AuthState)
    (st : AuthState) (req : Request) (rs : Nat → Response)
    (htok : tokenPresent st.access_token = true)
    (h403 : (rs 0).status = 403)
    (hq : containsQuota (rs 0).text = true) :
    (MyBMWAuthentication.async_auth_flow loginF st req rs).sleeps = [] ∧
    (MyBMWAuthentication.async_auth_flow loginF st req rs).sent = [setHeaders st req] ∧
    (MyBMWAuthentication.async_auth_flow loginF st req rs).loginCount = 0 ∧
    (MyBMWAuthentication.async_auth_flow loginF st req rs).outcome =
      .error ⟨403, (rs 0).text⟩ := by
  simp [MyBMWAuthentication.async_auth_flow, htok, h403, hq, retryLoop,
        handle_httpstatuserror, isErrorStatus]

/-- Witness for `quota403_immediate_apierror` at a concrete quota-403 run. -/
theorem quota403_immediate_apierror_witness :
    (MyBMWAuthentication.async_auth_flow okLogin stTok reqEmpty rsQuota403).sleeps = [] ∧
    (MyBMWAuthentication.async_auth_flow okLogin stTok reqEmpty rsQuota403).sent =
      [setHeaders stTok reqEmpty] ∧
    (MyBMWAuthentication.async_auth_flow okLogin stTok reqEmpty rsQuota403).loginCount = 0 ∧
    (MyBMWAuthentication.async_auth_flow okLogin stTok reqEmpty rsQuota403).outcome =
      .error ⟨403, (rsQuota403 0).text⟩ :=
  quota403_immediate_apierror okLogin stTok reqEmpty rsQuota403
    (by decide) (by decide) (by decide)

/-! ## Claim C2 (corrected) -/

/-- Claim C2 as stated is false: on the response sequence [429, 429, 429, 200]
the retry policy does not sleep exactly twice — each of the three loop
iterations sees a 429 and sleeps before resending, so it sleeps three times. -/
theorem seq429x3_200_two_sleeps_counterexample :
    ¬ ((MyBMWLoginRetry.async_auth_flow rsThree429).sleeps.length = 2 ∧
       (MyBMWLoginRetry.async_auth_flow rsThree429).outcome = .ok ⟨200, "ok", none⟩) := by
  decide

/-- Claim C2, amended: for the response sequence [429, 429, 429, 200] the
retry/backoff policy sleeps exactly three times — once before each of the
three resends — and the final response delivered to the caller is the 200 (no
extra wait occurs after the final resend); the same holds inside the
authenticated request flow. -/
theorem seq429x3_200_three_sleeps (rs : Nat → Response)
    (h0 : (rs 0).status = 429) (h1 : (rs 1).status = 429)
    (h2 : (rs 2).status = 429) (h3 : (rs 3).status = 200) :
    (MyBMWLoginRetry.async_auth_flow rs).sleeps.length = 3 ∧
    (MyBMWLoginRetry.async_auth_flow rs).outcome = .ok (rs 3) ∧
    ∀ loginF st req, tokenPresent st.access_token = true →
      (MyBMWAuthentication.async_auth_flow loginF st req rs).sleeps.length = 3 ∧
      (MyBMWAuthentication.async_auth_flow loginF st req rs).outcome = .ok (rs 3) := by
  refine ⟨?_, ?_, ?_⟩
  · simp [MyBMWLoginRetry.async_auth_flow, retryLoop3_all429 rs h0 h1 h2, h3]
  · simp [MyBMWLoginRetry.async_auth_flow, retryLoop3_all429 rs h0 h1 h2, h3]
  · intro loginF st req htok
    constructor <;>
      simp [MyBMWAuthentication.async_auth_flow, htok, h0,
            retryLoop3_all429 rs h0 h1 h2, h3, isErrorStatus]

/-- Witness for `seq429x3_200_three_sleeps` on the concrete sequence
[429, 429, 429, 200]. -/
theorem seq429x3_200_three_sleeps_witness :
    (MyBMWLoginRetry.async_auth_flow rsThree429).sleeps.length = 3 ∧
    (MyBMWLoginRetry.async_auth_flow rsThree429).outcome = .ok (rsThree429 3) ∧
    (MyBMWAuthentication.async_auth_flow okLogin stTok reqEmpty rsThree429).sleeps.length = 3 ∧
    (MyBMWAuthentication.async_auth_flow okLogin stTok reqEmpty rsThree429).outcome =
      .ok (rsThree429 3) := by
  have h := seq429x3_200_three_sleeps rsThree429
    (by decide) (by decide) (by decide) (by decide)
  have h2 := h.2.2 okLogin stTok reqEmpty (by decide)
  exact ⟨h.1, h.2.1, h2.1, h2.2⟩

/-! ## Claim C3 (corrected) -/

/-- Claim C3 as stated is false: the code does not parse the first run of
digits as one number. For a 429 whose message is "Retry after 15 seconds" the
claim demands a wait of ceil(15 * 1.25) = 19 seconds, but the code takes only
the first digit character (1) and sleeps ceil(1 * 1.25) = 2 seconds. -/
theorem wait_time_digit_run_counterexample :
    ¬ ((MyBMWLoginRetry.async_auth_flow rsRetry15).sleeps.head? =
        some ⌈(15 : ℚ) * (5 / 4)⌉₊) := by
  have h19 : ⌈(15 : ℚ) * (5 / 4)⌉₊ = 19 := by
    rw [show (15 : ℚ) = ((15 : ℕ) : ℚ) by norm_num, ← ceilMul125_eq_ceil]
    decide
  rw [h19]
  decide

/-- Claim C3, amended: for every 429 response the backoff wait equals
ceil(d * 1.25) seconds where d is the first digit character (a single digit
0-9) appearing anywhere in the body's `message` field, defaulting to 2 when no
digit is present. In particular "Retry after 5 seconds" yields a 7-second wait
and a message with no digits yields a 3-second wait. -/
theorem wait_time_first_digit (rs : Nat → Response) (h0 : (rs 0).status = 429) :
    (MyBMWLoginRetry.async_auth_flow rs).sleeps.head? =
      some ⌈((firstDigitOrDefault ((rs 0).message.getD "") : ℚ)) * (5 / 4)⌉₊ ∧
    waitTime429 (some "Retry after 5 seconds") = 7 ∧
    (∀ msg : String, msg.data.filter Char.isDigit = [] →
      waitTime429 (some msg) = 3) := by
  refine ⟨?_, by decide, ?_⟩
  · have hstep : retryLoop rs 3 (rs 0) 1 [] =
        retryLoop rs 2 (rs 1) 2 [waitTime429 (rs 0).message] := by
      simp [retryLoop, h0]
    obtain ⟨t, ht⟩ := retryLoop_sleeps_prefix rs 2 (rs 1) 2 [waitTime429 (rs 0).message]
    have hsl : (MyBMWLoginRetry.async_auth_flow rs).sleeps =
        waitTime429 (rs 0).message :: t := by
      simp only [MyBMWLoginRetry.async_auth_flow, hstep]
      by_cases hf : (retryLoop rs 2 (rs 1) 2 [waitTime429 (rs 0).message]).1.status == 429 <;>
        simp [hf, ht]
    rw [hsl]
    simp [waitTime429, ceilMul125_eq_ceil]
  · intro msg hmsg
    simp [waitTime429, firstDigitOrDefault, hmsg, ceilMul125]

/-- Witness for `wait_time_first_digit` at a concrete 429 run. -/
theorem wait_time_first_digit_witness :
    (MyBMWLoginRetry.async_auth_flow rsRetry15).sleeps.head? =
      some ⌈((firstDigitOrDefault ((rsRetry15 0).message.getD "") : ℚ)) * (5 / 4)⌉₊ ∧
    waitTime429 (some "Retry after 5 seconds") = 7 ∧
    waitTime429 (some "please hold") = 3 := by
  have h := wait_time_first_digit rsRetry15 (by decide)
  exact ⟨h.1, h.2.1, h.2.2 "please hold" (by decide)⟩

/-! ## Claim C4 (corrected) -/

/-- Claim C4 as stated is false on the China full-login path: its stored
expiry is the decoded token's `exp` claim minus the safety margin, not
`now + expires_in` minus the margin. Concretely, with wall-clock time 1000,
a timeout of 30 and a China login whose token carries `exp = 0`, the stored
expiry is `0 - 60`, which equals `1000 + expires_in - 60` for no
non-negative `expires_in`. -/
theorem china_expiry_counterexample :
    ¬ ∃ s : ℕ, (login (EXPIRES_AT_OFFSET 30) netsChinaExp0 stChinaFresh).map
        AuthState.expires_at = .ok (some (1000 + (s : ℤ) - EXPIRES_AT_OFFSET 30)) := by
  rintro ⟨s, hs⟩
  simp [login, stChinaFresh, netsChinaExp0, tokenPresent, Except.map,
        applyTokenChina, login_china, EXPIRES_AT_OFFSET] at hs
  omega

/-- Claim C4, amended: after every successful `login()`, the stored
`expires_at` equals the strategy's expiry minus 2x the configured HTTP
timeout; that strategy expiry is `now + expires_in` for the NA/ROW full-login
path, the NA/ROW refresh path and the China refresh path, but it is the
decoded token's `exp` claim for the China full-login path. -/
theorem expires_at_stored_offset (t now expiresIn tokenExp : Int)
    (nets : LoginNets) (st : AuthState) (a r g : String) :
    ((st.region = .NORTH_AMERICA ∨ st.region = .REST_OF_WORLD) →
      tokenPresent st.refresh_token = false →
      nets.rowNaLogin = .ok ⟨now, expiresIn, a, r⟩ →
      (login (EXPIRES_AT_OFFSET t) nets st).map AuthState.expires_at =
        .ok (some (now + expiresIn - 2 * t))) ∧
    ((st.region = .NORTH_AMERICA ∨ st.region = .REST_OF_WORLD) →
      tokenPresent st.refresh_token = true →
      nets.rowNaRefresh = .ok ⟨now, expiresIn, a, r⟩ →
      (login (EXPIRES_AT_OFFSET t) nets st).map AuthState.expires_at =
        .ok (some (now + expiresIn - 2 * t))) ∧
    (st.region = .CHINA →
      tokenPresent st.refresh_token = true →
      nets.chinaRefresh = .ok ⟨now, expiresIn, a, r, g⟩ →
      (login (EXPIRES_AT_OFFSET t) nets st).map AuthState.expires_at =
        .ok (some (now + expiresIn - 2 * t))) ∧
    (st.region = .CHINA →
      tokenPresent st.refresh_token = false →
      nets.chinaLogin = .ok ⟨tokenExp, a, r, g⟩ →
      (login (EXPIRES_AT_OFFSET t) nets st).map AuthState.expires_at =
        .ok (some (tokenExp - 2 * t))) := by
  refine ⟨?_, ?_, ?_, ?_⟩
  · intro hreg hrt hnet
    rcases hreg with h | h <;>
      · rw [login, h]
        simp [hrt, hnet, login_row_na, EXPIRES_AT_OFFSET, Except.map, applyTokenRowNa]
        ring
  · intro hreg hrt hnet
    rcases hreg with h | h <;>
      · rw [login, h]
        simp [hrt, hnet, refresh_token_row_na, login_row_na, EXPIRES_AT_OFFSET,
              Except.map, applyTokenRowNa]
        ring
  · intro hreg hrt hnet
    rw [login, hreg]
    simp [hrt, hnet, refresh_token_china, EXPIRES_AT_OFFSET, Except.map,
          applyTokenChina]
    ring
  · intro hreg hrt hnet
    rw [login, hreg]
    simp [hrt, hnet, login_china, EXPIRES_AT_OFFSET, Except.map, applyTokenChina]
    ring

/-- Witness for `expires_at_stored_offset`: all four login paths at concrete
inputs (timeout 30, so the stored expiry is the strategy expiry minus 60). -/
theorem expires_at_stored_offset_witness :
    (login (EXPIRES_AT_OFFSET 30) netsAll stNaNoRt).map AuthState.expires_at =
      .ok (some (30 + 40 - 2 * 30)) ∧
    (login (EXPIRES_AT_OFFSET 30) netsAll stNaRt).map AuthState.expires_at =
      .ok (some (10 + 20 - 2 * 30)) ∧
    (login (EXPIRES_AT_OFFSET 30) netsAll stChinaRt).map AuthState.expires_at =
      .ok (some (50 + 60 - 2 * 30)) ∧
    (login (EXPIRES_AT_OFFSET 30) netsAll stChinaFresh).map AuthState.expires_at =
      .ok (some (70 - 2 * 30)) := by
  refine ⟨?_, ?_, ?_, ?_⟩
  · exact (expires_at_stored_offset 30 30 40 0 netsAll stNaNoRt "al" "rl" "").1
      (Or.inl rfl) (by decide) rfl
  · exact (expires_at_stored_offset 30 10 20 0 netsAll stNaRt "ar" "rr" "").2.1
      (Or.inl rfl) (by decide) rfl
  · exact (expires_at_stored_offset 30 50 60 0 netsAll stChinaRt "ac" "rc" "gc").2.2.1
      rfl (by decide) rfl
  · exact (expires_at_stored_offset 30 0 0 70 netsAll stChinaFresh "acl" "rcl" "gcl").2.2.2
      rfl (by decide) rfl

/-! ## Claim C5 (confirmed) -/

/-- Claim C5: a classified API failure (`MyBMWAPIError`) in the NA/ROW
refresh-token path is caught and converted to the empty result, never
propagated, and `login()` then runs the full username/password login: the
final outcome is exactly the full-login strategy's outcome applied to the
state, with the refresh error appearing nowhere. -/
theorem refresh_failure_soft_fallback (e : APIError) (offset : Int)
    (nets : LoginNets) (st : AuthState)
    (hreg : st.region = .NORTH_AMERICA ∨ st.region = .REST_OF_WORLD)
    (hrt : tokenPresent st.refresh_token = true)
    (herr : nets.rowNaRefresh = .error e) :
    refresh_token_row_na nets.rowNaRefresh = none ∧
    login offset nets st =
      (nets.rowNaLogin.map login_row_na).map (fun td => applyTokenRowNa offset td st) := by
  constructor
  · simp [refresh_token_row_na, herr]
  · rcases hreg with h | h <;>
      · rw [login, h]
        simp [hrt, refresh_token_row_na, herr]

/-- Witness for `refresh_failure_soft_fallback`: a failing refresh with a
succeeding full login at concrete inputs. -/
theorem refresh_failure_soft_fallback_witness :
    refresh_token_row_na netsRefreshFail.rowNaRefresh = none ∧
    login 7 netsRefreshFail stNaRt =
      (netsRefreshFail.rowNaLogin.map login_row_na).map
        (fun td => applyTokenRowNa 7 td stNaRt) :=
  refresh_failure_soft_fallback ⟨429, "quota"⟩ 7 netsRefreshFail stNaRt
    (Or.inl rfl) (by decide) rfl

/-! ## Claim C6 (confirmed) -/

/-- Claim C6: when the first response has status 401, exactly one forced
reauthentication runs, the request is resent exactly once with freshly
attached authorization and session-id headers, and the second response is
delivered without any further retry — so a second 401 surfaces as the
resulting error (the response hook classifies any non-429 error status). -/
theorem unauthorized_single_reauth
    (loginF : AuthState → Except APIError AuthState)
    (st st2 : AuthState) (req : Request) (rs : Nat → Response)
    (htok : tokenPresent st.access_token = true)
    (h401 : (rs 0).status = 401)
    (hl : loginF st = .ok st2) :
    (MyBMWAuthentication.async_auth_flow loginF st req rs).loginCount = 1 ∧
    (MyBMWAuthentication.async_auth_flow loginF st req rs).sent =
      [setHeaders st req, setHeaders st2 (setHeaders st req)] ∧
    (MyBMWAuthentication.async_auth_flow loginF st req rs).outcome = .ok (rs 1) ∧
    ((rs 1).status = 401 →
      raise_for_status_event_handler (rs 1) = .error ⟨401, (rs 1).text⟩) := by
  refine ⟨?_, ?_, ?_, ?_⟩
  · simp [MyBMWAuthentication.async_auth_flow, htok, h401, hl]
  · simp [MyBMWAuthentication.async_auth_flow, htok, h401, hl]
  · simp [MyBMWAuthentication.async_auth_flow, htok, h401, hl]
  · intro h
    simp [raise_for_status_event_handler, h, isErrorStatus, handle_httpstatuserror]

/-- Witness for `unauthorized_single_reauth`: every response is a 401, the
forced login yields the fresh `stTok2`. -/
theorem unauthorized_single_reauth_witness :
    (MyBMWAuthentication.async_auth_flow loginTok2 stTok reqEmpty rs401all).loginCount = 1 ∧
    (MyBMWAuthentication.async_auth_flow loginTok2 stTok reqEmpty rs401all).sent =
      [setHeaders stTok reqEmpty, setHeaders stTok2 (setHeaders stTok reqEmpty)] ∧
    (MyBMWAuthentication.async_auth_flow loginTok2 stTok reqEmpty rs401all).outcome =
      .ok (rs401all 1) ∧
    raise_for_status_event_handler (rs401all 1) = .error ⟨401, (rs401all 1).text⟩ := by
  have h := unauthorized_single_reauth loginTok2 stTok stTok2 reqEmpty rs401all
    (by decide) (by decide) rfl
  exact ⟨h.1, h.2.1, h.2.2.1, h.2.2.2 (by decide)⟩

/-! ## Claim C7 (confirmed) -/

/-- Claim C7: when every response including all resends has status 429, the
retry/backoff loop stops after 3 retries (4 sends, 3 sleeps) and raises a
classified APIError carrying status 429 and the final response body; the same
exhaustion behavior holds inside the authenticated request flow. -/
theorem seq429x4_apierror (rs : Nat → Response)
    (h0 : (rs 0).status = 429) (h1 : (rs 1).status = 429)
    (h2 : (rs 2).status = 429) (h3 : (rs 3).status = 429) :
    (MyBMWLoginRetry.async_auth_flow rs).outcome = .error ⟨429, (rs 3).text⟩ ∧
    (MyBMWLoginRetry.async_auth_flow rs).sleeps.length = 3 ∧
    (MyBMWLoginRetry.async_auth_flow rs).sendCount = 4 ∧
    ∀ loginF st req, tokenPresent st.access_token = true →
      (MyBMWAuthentication.async_auth_flow loginF st req rs).outcome =
        .error ⟨429, (rs 3).text⟩ := by
  refine ⟨?_, ?_, ?_, ?_⟩
  · simp [MyBMWLoginRetry.async_auth_flow, retryLoop3_all429 rs h0 h1 h2, h3,
          handle_httpstatuserror]
  · simp [MyBMWLoginRetry.async_auth_flow, retryLoop3_all429 rs h0 h1 h2, h3]
  · simp [MyBMWLoginRetry.async_auth_flow, retryLoop3_all429 rs h0 h1 h2, h3]
  · intro loginF st req htok
    simp [MyBMWAuthentication.async_auth_flow, htok, h0,
          retryLoop3_all429 rs h0 h1 h2, h3, handle_httpstatuserror, isErrorStatus]

/-- Witness for `seq429x4_apierror` on the all-429 transport. -/
theorem seq429x4_apierror_witness :
    (MyBMWLoginRetry.async_auth_flow rs429all).outcome =
      .error ⟨429, (rs429all 3).text⟩ ∧
    (MyBMWLoginRetry.async_auth_flow rs429all).sleeps.length = 3 ∧
    (MyBMWLoginRetry.async_auth_flow rs429all).sendCount = 4 ∧
    (MyBMWAuthentication.async_auth_flow okLogin stTok reqEmpty rs429all).outcome =
      .error ⟨429, (rs429all 3).text⟩ := by
  have h := seq429x4_apierror rs429all (by decide) (by decide) (by decide) (by decide)
  exact ⟨h.1, h.2.1, h.2.2.1, h.2.2.2 okLogin stTok reqEmpty (by decide)⟩

/-! ## Claim C8 (confirmed) -/

/-- Claim C8: `access_token` and `expires_at` are updated together or not at
all. Every successful `login()` stores both fields from a single successful
strategy result (with the safety margin subtracted from the expiry); when
`login()` raises, the state at the exception point keeps both fields at
exactly their prior values. -/
theorem token_expiry_atomic_update (offset : Int) (nets : LoginNets) (st : AuthState) :
    (∀ st1, login offset nets st = .ok st1 →
       ∃ a x, st1.access_token = some a ∧ st1.expires_at = some (x - offset) ∧
         isStrategyToken nets a x) ∧
    (∀ e, (loginRun offset nets st).2 = some e →
       (loginRun offset nets st).1.access_token = st.access_token ∧
       (loginRun offset nets st).1.expires_at = st.expires_at) := by
  constructor
  · exact fun st1 hok => login_ok_strategy_token offset nets st st1 hok
  · intro e he
    unfold loginRun at he ⊢
    cases h : login offset nets st with
    | ok st1 => rw [h] at he; simp at he
    | error e2 => exact ⟨rfl, rfl⟩

/-- Witness for `token_expiry_atomic_update`: a succeeding login stores a
strategy pair; a failing login leaves both fields untouched. -/
theorem token_expiry_atomic_update_witness :
    (∃ a x, (applyTokenRowNa 3 (login_row_na ⟨30, 40, "al", "rl"⟩) stNaNoRt).access_token =
        some a ∧
      (applyTokenRowNa 3 (login_row_na ⟨30, 40, "al", "rl"⟩) stNaNoRt).expires_at =
        some (x - 3) ∧
      isStrategyToken netsAll a x) ∧
    ((loginRun 3 netsFailAll stNaNoRt).1.access_token = stNaNoRt.access_token ∧
     (loginRun 3 netsFailAll stNaNoRt).1.expires_at = stNaNoRt.expires_at) := by
  constructor
  · exact (token_expiry_atomic_update 3 netsAll stNaNoRt).1 _ (by decide)
  · exact (token_expiry_atomic_update 3 netsFailAll stNaNoRt).2 ⟨500, "boom"⟩ (by decide)

/-! ## Claim C9 (confirmed) -/

/-- Claim C9: for N > 0 callers serialized by the login lock on a credential
with no access token, exactly one login invocation occurs — the first caller
logs in, and every later caller sees the token installed by that login and
skips `login()`, leaving the state exactly as the single login left it. -/
theorem single_flight_login (loginF : AuthState → AuthState) (st : AuthState)
    (n : Nat) (hn : 0 < n)
    (h0 : tokenPresent st.access_token = false)
    (hl : ∀ s, tokenPresent (loginF s).access_token = true) :
    (serializeCallers loginF n st).2 = 1 ∧
    (serializeCallers loginF n st).1 = loginF st := by
  obtain ⟨m, rfl⟩ : ∃ m, n = m + 1 := ⟨n - 1, by omega⟩
  have hfirst : lockedLoginStep loginF st = (loginF st, 1) := by
    simp [lockedLoginStep, h0]
  have hrest := serializeCallers_present loginF m (loginF st) (hl st)
  simp [serializeCallers, hfirst, hrest]

/-- Witness for `single_flight_login`: five serialized callers on a fresh
credential trigger exactly one login. -/
theorem single_flight_login_witness :
    (serializeCallers loginSetTok 5 stChinaFresh).2 = 1 ∧
    (serializeCallers loginSetTok 5 stChinaFresh).1 = loginSetTok stChinaFresh :=
  single_flight_login loginSetTok stChinaFresh 5 (by decide) (by decide)
    (by intro s; show tokenPresent (some "fresh") = true; decide)

/-! ## Claim C10 (confirmed) -/

/-- Claim C10 (implicit): `expires_at` is never read by the flow — the
decision to log in before sending depends solely on `access_token` being
absent. For a credential whose token is present (even with `expires_at` in
the past), the stale token is attached and sent; no login occurs when the
response is not a 401; and the flow's observable behavior (login count, sends,
sleeps, outcome) is identical for any two values of `expires_at`. -/
theorem expires_at_never_read (loginF : AuthState → Except APIError AuthState)
    (st : AuthState) (req : Request) (rs : Nat → Response)
    (t : String) (e now e1 e2 : Int)
    (ht : st.access_token = some t) (htne : t ≠ "")
    (hexp : st.expires_at = some e) (hpast : e < now) :
    (MyBMWAuthentication.async_auth_flow loginF st req rs).sent.head? =
      some { req with authorization := some ("Bearer " ++ t),
                      bmw_session_id := some st.session_id } ∧
    ((rs 0).status ≠ 401 →
      (MyBMWAuthentication.async_auth_flow loginF st req rs).loginCount = 0) ∧
    ((rs 0).status ≠ 401 →
      ((MyBMWAuthentication.async_auth_flow loginF
          { st with expires_at := some e1 } req rs).loginCount =
        (MyBMWAuthentication.async_auth_flow loginF
          { st with expires_at := some e2 } req rs).loginCount ∧
       (MyBMWAuthentication.async_auth_flow loginF
          { st with expires_at := some e1 } req rs).sent =
        (MyBMWAuthentication.async_auth_flow loginF
          { st with expires_at := some e2 } req rs).sent ∧
       (MyBMWAuthentication.async_auth_flow loginF
          { st with expires_at := some e1 } req rs).sleeps =
        (MyBMWAuthentication.async_auth_flow loginF
          { st with expires_at := some e2 } req rs).sleeps ∧
       (MyBMWAuthentication.async_auth_flow loginF
          { st with expires_at := some e1 } req rs).outcome =
        (MyBMWAuthentication.async_auth_flow loginF
          { st with expires_at := some e2 } req rs).outcome)) := by
  have htok : tokenPresent st.access_token = true := by
    simp [tokenPresent, ht, htne]
  have hbear : bearerOf st.access_token = "Bearer " ++ t := by
    simp [bearerOf, ht]
  refine ⟨?_, ?_, ?_⟩
  · by_cases h401 : (rs 0).status == 401
    · cases hlf : loginF st with
      | error e3 =>
        simp [MyBMWAuthentication.async_auth_flow, htok, h401, hlf, setHeaders, hbear]
      | ok st2 =>
        simp [MyBMWAuthentication.async_auth_flow, htok, h401, hlf, setHeaders, hbear]
    · by_cases hq : (rs 0).status == 429 ||
          ((rs 0).status == 403 && containsQuota (rs 0).text)
      · have hge := retryLoop_idx_le rs 3 (rs 0) 1 []
        obtain ⟨k, hk⟩ : ∃ k, (retryLoop rs 3 (rs 0) 1 []).2.1 = k + 1 :=
          ⟨(retryLoop rs 3 (rs 0) 1 []).2.1 - 1, by omega⟩
        by_cases herr : isErrorStatus (retryLoop rs 3 (rs 0) 1 []).1.status <;>
          simp [MyBMWAuthentication.async_auth_flow, htok, h401, hq, herr, hk,
                setHeaders, hbear, List.replicate]
      · simp [MyBMWAuthentication.async_auth_flow, htok, h401, hq, setHeaders, hbear]
  · intro h401
    have h401b : ((rs 0).status == 401) = false := by simp [h401]
    by_cases hq : (rs 0).status == 429 ||
        ((rs 0).status == 403 && containsQuota (rs 0).text)
    · by_cases herr : isErrorStatus (retryLoop rs 3 (rs 0) 1 []).1.status <;>
        simp [MyBMWAuthentication.async_auth_flow, htok, h401b, hq, herr]
    · simp [MyBMWAuthentication.async_auth_flow, htok, h401b, hq]
  · intro h401
    have h401b : ((rs 0).status == 401) = false := by simp [h401]
    have htok1 : tokenPresent
        ({ st with expires_at := some e1 } : AuthState).access_token = true := htok
    have htok2 : tokenPresent
        ({ st with expires_at := some e2 } : AuthState).access_token = true := htok
    by_cases hq : (rs 0).status == 429 ||
        ((rs 0).status == 403 && containsQuota (rs 0).text)
    · by_cases herr : isErrorStatus (retryLoop rs 3 (rs 0) 1 []).1.status <;>
        simp [MyBMWAuthentication.async_auth_flow, htok1, htok2, h401b, hq, herr,
              setHeaders]
    · simp [MyBMWAuthentication.async_auth_flow, htok1, htok2, h401b, hq, setHeaders]

/-- Witness for `expires_at_never_read`: a token-holding credential whose
expiry (100) is before the wall-clock time (101), sent against a transport
that always answers 200. -/
theorem expires_at_never_read_witness :
    (MyBMWAuthentication.async_auth_flow okLogin stTok reqEmpty rs200all).sent.head? =
      some { reqEmpty with authorization := some ("Bearer " ++ "tok"),
                           bmw_session_id := some stTok.session_id } ∧
    (MyBMWAuthentication.async_auth_flow okLogin stTok reqEmpty rs200all).loginCount = 0 ∧
    (MyBMWAuthentication.async_auth_flow okLogin
        { stTok with expires_at := some (-5) } reqEmpty rs200all).outcome =
      (MyBMWAuthentication.async_auth_flow okLogin
        { stTok with expires_at := some 77 } reqEmpty rs200all).outcome := by
  have h := expires_at_never_read okLogin stTok reqEmpty rs200all "tok" 100 101 (-5) 77
    rfl (by decide) rfl (by decide)
  exact ⟨h.1, h.2.1 (by decide), (h.2.2 (by decide)).2.2.2⟩

end BimmerConnected
